import Mathlib

/-!
Verification of the decision-fusion engine core: a shallow embedding of the
weight-fusion rule engine, the hexagram structure deriver, the seeded sampler
constructors, and the time-series signal evaluator, together with theorems
settling the specification claims about them.

JavaScript numbers are modelled as rationals; possibly-undefined values as
Option; fallible evaluation as Except.  JavaScript truthiness of a numeric
field (false for undefined and for 0) is modelled explicitly.
-/

namespace Yi

/-! ## Rule engine layer (src/layers/RuleEngineLayer.ts) -/

/-- The three strategy profiles of the rule engine. -/
inductive StrategyProfile where
  | zhuxi
  | meihua
  | engineering
deriving DecidableEq

/-- A 3-way weight vector (primary / relating / mutual hexagram weights). -/
@[ext]
structure FusionWeights where
  primary : ℚ
  relating : ℚ
  «mutual» : ℚ
deriving DecidableEq

/-- One entry of the moving-line strategy table: a focus label and base weights. -/
structure Strategy where
  focus : String
  weights : FusionWeights
deriving DecidableEq

/-- The feature bundle consumed by the rule engine (the fields of
StructuredQuestion that featureFusion and calculateConfidence read).
Optional scalar fields are Option; goal, context and riskPreference are
plain strings as in the source interface. -/
structure StructuredQuestion where
  goal : String
  context : String
  riskPreference : String
  options : Option (List String)
  intent : Option String
  intentConfidence : Option ℚ
  confidence : Option ℚ
  riskScore : Option ℚ
  isTrendDetected : Option Bool
  urgency : Option ℚ
  agency : Option ℚ
deriving DecidableEq

/-- JavaScript truthiness of a possibly-undefined number: undefined and 0 are
falsy. -/
def numTruthy (o : Option ℚ) : Bool :=
  match o with
  | none => false
  | some x => decide (x ≠ 0)

/-- JavaScript test "o && o > t" on a possibly-undefined number. -/
def numHigh (o : Option ℚ) (t : ℚ) : Bool :=
  match o with
  | none => false
  | some x => decide (x ≠ 0) && decide (t < x)

/-- JavaScript test "o && o < t" on a possibly-undefined number. -/
def numLow (o : Option ℚ) (t : ℚ) : Bool :=
  match o with
  | none => false
  | some x => decide (x ≠ 0) && decide (x < t)

/-- JavaScript truthiness of a possibly-undefined boolean. -/
def boolTruthy (o : Option Bool) : Bool :=
  match o with
  | none => false
  | some b => b

/-- JavaScript truthiness of a string: the empty string is falsy. -/
def strTruthy (s : String) : Bool :=
  decide (s ≠ "")

namespace RuleEngineLayer

/-- The strategy table of RuleEngineLayer.loadStrategies, indexed by profile
and moving-line count 0..6. -/
def loadStrategies (p : StrategyProfile) (count : Fin 7) : Strategy :=
  match p, count with
  | .zhuxi, 0 => ⟨"judgment", ⟨1, 0, 0⟩⟩
  | .zhuxi, 1 => ⟨"line", ⟨0.7, 0.2, 0.1⟩⟩
  | .zhuxi, 2 => ⟨"both-lines", ⟨0.6, 0.3, 0.1⟩⟩
  | .zhuxi, 3 => ⟨"transition", ⟨0.4, 0.4, 0.2⟩⟩
  | .zhuxi, 4 => ⟨"relating", ⟨0.3, 0.5, 0.2⟩⟩
  | .zhuxi, 5 => ⟨"major-change", ⟨0.2, 0.7, 0.1⟩⟩
  | .zhuxi, 6 => ⟨"complete-change", ⟨0.1, 0.9, 0⟩⟩
  | .meihua, 0 => ⟨"judgment", ⟨0.8, 0, 0.2⟩⟩
  | .meihua, 1 => ⟨"line", ⟨0.6, 0.2, 0.2⟩⟩
  | .meihua, 2 => ⟨"both-lines", ⟨0.5, 0.25, 0.25⟩⟩
  | .meihua, 3 => ⟨"transition", ⟨0.35, 0.35, 0.3⟩⟩
  | .meihua, 4 => ⟨"relating", ⟨0.3, 0.4, 0.3⟩⟩
  | .meihua, 5 => ⟨"major-change", ⟨0.2, 0.5, 0.3⟩⟩
  | .meihua, 6 => ⟨"complete-change", ⟨0.1, 0.7, 0.2⟩⟩
  | .engineering, 0 => ⟨"judgment", ⟨1, 0, 0⟩⟩
  | .engineering, 1 => ⟨"line", ⟨0.6, 0.3, 0.1⟩⟩
  | .engineering, 2 => ⟨"both-lines", ⟨0.5, 0.35, 0.15⟩⟩
  | .engineering, 3 => ⟨"transition", ⟨0.35, 0.35, 0.3⟩⟩
  | .engineering, 4 => ⟨"relating", ⟨0.25, 0.5, 0.25⟩⟩
  | .engineering, 5 => ⟨"major-change", ⟨0.15, 0.65, 0.2⟩⟩
  | .engineering, 6 => ⟨"complete-change", ⟨0.1, 0.8, 0.1⟩⟩

/-- Condition of the first featureFusion rule:
intent === "timing" and isTrendDetected is truthy. -/
def timingCond (q : StructuredQuestion) : Bool :=
  decide (q.intent = some "timing") && boolTruthy q.isTrendDetected

/-- Condition of the second featureFusion rule: intent === "risk". -/
def riskIntentCond (q : StructuredQuestion) : Bool :=
  decide (q.intent = some "risk")

/-- The source computes "question.riskScore || 0.5": an absent or zero risk
score falls back to the default 0.5. -/
def effRiskScore (q : StructuredQuestion) : ℚ :=
  match q.riskScore with
  | none => 0.5
  | some x => if x = 0 then 0.5 else x

/-- Conservative branch condition: riskScore < 0.3 or
riskPreference === "conservative". -/
def consCond (q : StructuredQuestion) : Bool :=
  decide (effRiskScore q < 0.3) || decide (q.riskPreference = "conservative")

/-- Aggressive branch condition: riskScore > 0.7 or
riskPreference === "aggressive". -/
def aggrCond (q : StructuredQuestion) : Bool :=
  decide (0.7 < effRiskScore q) || decide (q.riskPreference = "aggressive")

/-- High-agency condition: agency truthy and > 0.7. -/
def agencyHighCond (q : StructuredQuestion) : Bool :=
  numHigh q.agency 0.7

/-- Low-agency condition: agency truthy and < 0.3. -/
def agencyLowCond (q : StructuredQuestion) : Bool :=
  numLow q.agency 0.3

/-- High-urgency condition: urgency truthy and > 0.7. -/
def urgencyHighCond (q : StructuredQuestion) : Bool :=
  numHigh q.urgency 0.7

/-- Rule 1 of featureFusion: timing intent with a detected trend boosts
mutual and relating, damps primary. -/
def timingAdjust (q : StructuredQuestion) (w : FusionWeights) : FusionWeights :=
  if timingCond q then ⟨w.primary * 0.9, w.relating * 1.1, w.«mutual» * 1.2⟩ else w

/-- Rule 2 of featureFusion: risk intent boosts primary, damps relating. -/
def riskIntentAdjust (q : StructuredQuestion) (w : FusionWeights) : FusionWeights :=
  if riskIntentCond q then ⟨w.primary * 1.15, w.relating * 0.95, w.«mutual»⟩ else w

/-- Rule 3 of featureFusion: conservative risk tolerance boosts primary,
else aggressive boosts relating. -/
def riskAdjust (q : StructuredQuestion) (w : FusionWeights) : FusionWeights :=
  if consCond q then ⟨w.primary * 1.1, w.relating * 0.9, w.«mutual»⟩
  else if aggrCond q then ⟨w.primary * 0.95, w.relating * 1.15, w.«mutual»⟩
  else w

/-- Rule 4 of featureFusion: high agency boosts primary and relating, damps
mutual; else low (but nonzero) agency boosts mutual, damps primary. -/
def agencyAdjust (q : StructuredQuestion) (w : FusionWeights) : FusionWeights :=
  if agencyHighCond q then ⟨w.primary * 1.05, w.relating * 1.05, w.«mutual» * 0.9⟩
  else if agencyLowCond q then ⟨w.primary * 0.95, w.relating, w.«mutual» * 1.15⟩
  else w

/-- Rule 5 of featureFusion: high urgency boosts relating. -/
def urgencyAdjust (q : StructuredQuestion) (w : FusionWeights) : FusionWeights :=
  if urgencyHighCond q then ⟨w.primary, w.relating * 1.1, w.«mutual»⟩ else w

/-- All five multiplicative rules of featureFusion, in source order, with no
intermediate normalization. -/
def adjustWeights (q : StructuredQuestion) (w : FusionWeights) : FusionWeights :=
  urgencyAdjust q (agencyAdjust q (riskAdjust q (riskIntentAdjust q (timingAdjust q w))))

/-- The final renormalization of featureFusion: divide each weight by the
total. -/
def normalizeWeights (w : FusionWeights) : FusionWeights :=
  let total := w.primary + w.relating + w.«mutual»
  ⟨w.primary / total, w.relating / total, w.«mutual» / total⟩

/-- RuleEngineLayer.featureFusion: the five multiplicative adjustments
followed by a single renormalization. -/
def featureFusion (w : FusionWeights) (q : StructuredQuestion) : FusionWeights :=
  normalizeWeights (adjustWeights q w)

/-- The total multiplicative factor the five rules apply to the primary
weight. -/
def fP (q : StructuredQuestion) : ℚ :=
  (if timingCond q then 0.9 else 1) *
  (if riskIntentCond q then 1.15 else 1) *
  (if consCond q then 1.1 else if aggrCond q then 0.95 else 1) *
  (if agencyHighCond q then 1.05 else if agencyLowCond q then 0.95 else 1)

/-- The total multiplicative factor the five rules apply to the relating
weight. -/
def fR (q : StructuredQuestion) : ℚ :=
  (if timingCond q then 1.1 else 1) *
  (if riskIntentCond q then 0.95 else 1) *
  (if consCond q then 0.9 else if aggrCond q then 1.15 else 1) *
  (if agencyHighCond q then 1.05 else 1) *
  (if urgencyHighCond q then 1.1 else 1)

/-- The total multiplicative factor the five rules apply to the mutual
weight. -/
def fM (q : StructuredQuestion) : ℚ :=
  (if timingCond q then 1.2 else 1) *
  (if agencyHighCond q then 0.9 else if agencyLowCond q then 1.15 else 1)

lemma timingAdjust_primary (q : StructuredQuestion) (w : FusionWeights) :
    (timingAdjust q w).primary = if timingCond q then w.primary * 0.9 else w.primary := by
  unfold timingAdjust; split_ifs <;> rfl

lemma timingAdjust_relating (q : StructuredQuestion) (w : FusionWeights) :
    (timingAdjust q w).relating = if timingCond q then w.relating * 1.1 else w.relating := by
  unfold timingAdjust; split_ifs <;> rfl

lemma timingAdjust_mutual (q : StructuredQuestion) (w : FusionWeights) :
    (timingAdjust q w).«mutual» = if timingCond q then w.«mutual» * 1.2 else w.«mutual» := by
  unfold timingAdjust; split_ifs <;> rfl

lemma riskIntentAdjust_primary (q : StructuredQuestion) (w : FusionWeights) :
    (riskIntentAdjust q w).primary = if riskIntentCond q then w.primary * 1.15 else w.primary := by
  unfold riskIntentAdjust; split_ifs <;> rfl

lemma riskIntentAdjust_relating (q : StructuredQuestion) (w : FusionWeights) :
    (riskIntentAdjust q w).relating = if riskIntentCond q then w.relating * 0.95 else w.relating := by
  unfold riskIntentAdjust; split_ifs <;> rfl

lemma riskIntentAdjust_mutual (q : StructuredQuestion) (w : FusionWeights) :
    (riskIntentAdjust q w).«mutual» = w.«mutual» := by
  unfold riskIntentAdjust; split_ifs <;> rfl

lemma riskAdjust_primary (q : StructuredQuestion) (w : FusionWeights) :
    (riskAdjust q w).primary =
      if consCond q then w.primary * 1.1 else if aggrCond q then w.primary * 0.95 else w.primary := by
  unfold riskAdjust; split_ifs <;> rfl

lemma riskAdjust_relating (q : StructuredQuestion) (w : FusionWeights) :
    (riskAdjust q w).relating =
      if consCond q then w.relating * 0.9 else if aggrCond q then w.relating * 1.15 else w.relating := by
  unfold riskAdjust; split_ifs <;> rfl

lemma riskAdjust_mutual (q : StructuredQuestion) (w : FusionWeights) :
    (riskAdjust q w).«mutual» = w.«mutual» := by
  unfold riskAdjust; split_ifs <;> rfl

lemma agencyAdjust_primary (q : StructuredQuestion) (w : FusionWeights) :
    (agencyAdjust q w).primary =
      if agencyHighCond q then w.primary * 1.05
      else if agencyLowCond q then w.primary * 0.95 else w.primary := by
  unfold agencyAdjust; split_ifs <;> rfl

lemma agencyAdjust_relating (q : StructuredQuestion) (w : FusionWeights) :
    (agencyAdjust q w).relating =
      if agencyHighCond q then w.relating * 1.05 else w.relating := by
  unfold agencyAdjust; split_ifs <;> rfl

lemma agencyAdjust_mutual (q : StructuredQuestion) (w : FusionWeights) :
    (agencyAdjust q w).«mutual» =
      if agencyHighCond q then w.«mutual» * 0.9
      else if agencyLowCond q then w.«mutual» * 1.15 else w.«mutual» := by
  unfold agencyAdjust; split_ifs <;> rfl

lemma urgencyAdjust_primary (q : StructuredQuestion) (w : FusionWeights) :
    (urgencyAdjust q w).primary = w.primary := by
  unfold urgencyAdjust; split_ifs <;> rfl

lemma urgencyAdjust_relating (q : StructuredQuestion) (w : FusionWeights) :
    (urgencyAdjust q w).relating =
      if urgencyHighCond q then w.relating * 1.1 else w.relating := by
  unfold urgencyAdjust; split_ifs <;> rfl

lemma urgencyAdjust_mutual (q : StructuredQuestion) (w : FusionWeights) :
    (urgencyAdjust q w).«mutual» = w.«mutual» := by
  unfold urgencyAdjust; split_ifs <;> rfl

lemma adjustWeights_primary (q : StructuredQuestion) (w : FusionWeights) :
    (adjustWeights q w).primary = w.primary * fP q := by
  simp only [adjustWeights, urgencyAdjust_primary, agencyAdjust_primary, riskAdjust_primary,
    riskIntentAdjust_primary, timingAdjust_primary, fP]
  split_ifs <;> ring

lemma adjustWeights_relating (q : StructuredQuestion) (w : FusionWeights) :
    (adjustWeights q w).relating = w.relating * fR q := by
  simp only [adjustWeights, urgencyAdjust_relating, agencyAdjust_relating, riskAdjust_relating,
    riskIntentAdjust_relating, timingAdjust_relating, fR]
  split_ifs <;> ring

lemma adjustWeights_mutual (q : StructuredQuestion) (w : FusionWeights) :
    (adjustWeights q w).«mutual» = w.«mutual» * fM q := by
  simp only [adjustWeights, urgencyAdjust_mutual, agencyAdjust_mutual, riskAdjust_mutual,
    riskIntentAdjust_mutual, timingAdjust_mutual, fM]
  split_ifs <;> ring

lemma fP_pos (q : StructuredQuestion) : 0 < fP q := by
  unfold fP; split_ifs <;> norm_num

lemma fR_pos (q : StructuredQuestion) : 0 < fR q := by
  unfold fR; split_ifs <;> norm_num

lemma fM_pos (q : StructuredQuestion) : 0 < fM q := by
  unfold fM; split_ifs <;> norm_num

lemma basePrimary_pos (p : StrategyProfile) (c : Fin 7) :
    0 < (loadStrategies p c).weights.primary := by
  cases p <;> fin_cases c <;> norm_num [loadStrategies]

lemma baseRelating_nonneg (p : StrategyProfile) (c : Fin 7) :
    0 ≤ (loadStrategies p c).weights.relating := by
  cases p <;> fin_cases c <;> norm_num [loadStrategies]

lemma baseMutual_nonneg (p : StrategyProfile) (c : Fin 7) :
    0 ≤ (loadStrategies p c).weights.«mutual» := by
  cases p <;> fin_cases c <;> norm_num [loadStrategies]

lemma featureFusion_primary (w : FusionWeights) (q : StructuredQuestion) :
    (featureFusion w q).primary =
      w.primary * fP q / (w.primary * fP q + w.relating * fR q + w.«mutual» * fM q) := by
  unfold featureFusion normalizeWeights
  simp only [adjustWeights_primary, adjustWeights_relating, adjustWeights_mutual]

lemma featureFusion_relating (w : FusionWeights) (q : StructuredQuestion) :
    (featureFusion w q).relating =
      w.relating * fR q / (w.primary * fP q + w.relating * fR q + w.«mutual» * fM q) := by
  unfold featureFusion normalizeWeights
  simp only [adjustWeights_primary, adjustWeights_relating, adjustWeights_mutual]

lemma featureFusion_mutual (w : FusionWeights) (q : StructuredQuestion) :
    (featureFusion w q).«mutual» =
      w.«mutual» * fM q / (w.primary * fP q + w.relating * fR q + w.«mutual» * fM q) := by
  unfold featureFusion normalizeWeights
  simp only [adjustWeights_primary, adjustWeights_relating, adjustWeights_mutual]

lemma totalAdjusted_pos (p : StrategyProfile) (c : Fin 7) (q : StructuredQuestion) :
    0 < (loadStrategies p c).weights.primary * fP q +
        (loadStrategies p c).weights.relating * fR q +
        (loadStrategies p c).weights.«mutual» * fM q := by
  have h1 := mul_pos (basePrimary_pos p c) (fP_pos q)
  have h2 := mul_nonneg (baseRelating_nonneg p c) (fR_pos q).le
  have h3 := mul_nonneg (baseMutual_nonneg p c) (fM_pos q).le
  linarith

end RuleEngineLayer

end Yi

namespace Yi

namespace RuleEngineLayer

/-- Claim C1: for every profile, every active-slot count 0..6 and every
feature bundle, the three weights returned by featureFusion sum to exactly 1
(hence to 1.0 within any tolerance, in particular 1e-9), and each returned
weight equals the base weight multiplied by the total factor of all
applicable rules, divided once by the sum of the three fully adjusted
weights: renormalization happens exactly once, after all multiplicative
adjustments. -/
theorem c1_fusion_sum_one_single_renormalization
    (p : StrategyProfile) (c : Fin 7) (q : StructuredQuestion) :
    ((featureFusion (loadStrategies p c).weights q).primary +
      (featureFusion (loadStrategies p c).weights q).relating +
      (featureFusion (loadStrategies p c).weights q).«mutual» = 1) ∧
    featureFusion (loadStrategies p c).weights q =
      ⟨(loadStrategies p c).weights.primary * fP q /
         ((loadStrategies p c).weights.primary * fP q +
          (loadStrategies p c).weights.relating * fR q +
          (loadStrategies p c).weights.«mutual» * fM q),
       (loadStrategies p c).weights.relating * fR q /
         ((loadStrategies p c).weights.primary * fP q +
          (loadStrategies p c).weights.relating * fR q +
          (loadStrategies p c).weights.«mutual» * fM q),
       (loadStrategies p c).weights.«mutual» * fM q /
         ((loadStrategies p c).weights.primary * fP q +
          (loadStrategies p c).weights.relating * fR q +
          (loadStrategies p c).weights.«mutual» * fM q)⟩ := by
  have hT := totalAdjusted_pos p c q
  constructor
  · rw [featureFusion_primary, featureFusion_relating, featureFusion_mutual,
      div_add_div_same, div_add_div_same, div_self hT.ne']
  · exact FusionWeights.ext (featureFusion_primary _ _) (featureFusion_relating _ _)
      (featureFusion_mutual _ _)

end RuleEngineLayer

end Yi
namespace Yi

namespace RuleEngineLayer

/-- The product of the agency-independent rule factors on the primary
weight. -/
def gP (q : StructuredQuestion) : ℚ :=
  (if timingCond q then 0.9 else 1) *
  (if riskIntentCond q then 1.15 else 1) *
  (if consCond q then 1.1 else if aggrCond q then 0.95 else 1)

/-- The product of the agency-independent rule factors on the relating
weight. -/
def gR (q : StructuredQuestion) : ℚ :=
  (if timingCond q then 1.1 else 1) *
  (if riskIntentCond q then 0.95 else 1) *
  (if consCond q then 0.9 else if aggrCond q then 1.15 else 1) *
  (if urgencyHighCond q then 1.1 else 1)

/-- The product of the agency-independent rule factors on the mutual
weight. -/
def gM (q : StructuredQuestion) : ℚ :=
  if timingCond q then 1.2 else 1

lemma gP_pos (q : StructuredQuestion) : 0 < gP q := by
  unfold gP; split_ifs <;> norm_num

lemma gR_pos (q : StructuredQuestion) : 0 < gR q := by
  unfold gR; split_ifs <;> norm_num

lemma gM_pos (q : StructuredQuestion) : 0 < gM q := by
  unfold gM; split_ifs <;> norm_num

lemma timingCond_agency (q : StructuredQuestion) (o : Option ℚ) :
    timingCond { q with agency := o } = timingCond q := rfl

lemma riskIntentCond_agency (q : StructuredQuestion) (o : Option ℚ) :
    riskIntentCond { q with agency := o } = riskIntentCond q := rfl

lemma consCond_agency (q : StructuredQuestion) (o : Option ℚ) :
    consCond { q with agency := o } = consCond q := rfl

lemma aggrCond_agency (q : StructuredQuestion) (o : Option ℚ) :
    aggrCond { q with agency := o } = aggrCond q := rfl

lemma urgencyHighCond_agency (q : StructuredQuestion) (o : Option ℚ) :
    urgencyHighCond { q with agency := o } = urgencyHighCond q := rfl

lemma agencyHighCond_low (q : StructuredQuestion) (a : ℚ) (h2 : a < 0.7) :
    agencyHighCond { q with agency := some a } = false := by
  simp only [agencyHighCond, numHigh]
  rw [decide_eq_false (by linarith : ¬ (0.7:ℚ) < a), Bool.and_false]

lemma agencyLowCond_low (q : StructuredQuestion) (a : ℚ) (h1 : 0 < a) (h2 : a < 0.3) :
    agencyLowCond { q with agency := some a } = true := by
  simp only [agencyLowCond, numLow]
  rw [decide_eq_true h1.ne', decide_eq_true h2, Bool.and_self]

lemma agencyHighCond_high (q : StructuredQuestion) (a : ℚ) (h : 0.7 < a) :
    agencyHighCond { q with agency := some a } = true := by
  have h0 : a ≠ 0 := by positivity
  simp only [agencyHighCond, numHigh]
  rw [decide_eq_true h0, decide_eq_true h, Bool.and_self]

lemma fP_agency_low (q : StructuredQuestion) (a : ℚ) (h1 : 0 < a) (h2 : a < 0.3) :
    fP { q with agency := some a } = 0.95 * gP q := by
  unfold fP gP
  rw [timingCond_agency, riskIntentCond_agency, consCond_agency, aggrCond_agency,
    agencyHighCond_low q a (by linarith), agencyLowCond_low q a h1 h2]
  simp only [Bool.false_eq_true, if_false, if_true]
  ring

lemma fR_agency_low (q : StructuredQuestion) (a : ℚ) (h2 : a < 0.7) :
    fR { q with agency := some a } = gR q := by
  unfold fR gR
  rw [timingCond_agency, riskIntentCond_agency, consCond_agency, aggrCond_agency,
    urgencyHighCond_agency, agencyHighCond_low q a h2]
  simp only [Bool.false_eq_true, if_false]
  ring

lemma fM_agency_low (q : StructuredQuestion) (a : ℚ) (h1 : 0 < a) (h2 : a < 0.3) :
    fM { q with agency := some a } = 1.15 * gM q := by
  unfold fM gM
  rw [timingCond_agency,
    agencyHighCond_low q a (by linarith), agencyLowCond_low q a h1 h2]
  simp only [Bool.false_eq_true, if_false, if_true]
  ring

lemma fP_agency_high (q : StructuredQuestion) (a : ℚ) (h : 0.7 < a) :
    fP { q with agency := some a } = 1.05 * gP q := by
  unfold fP gP
  rw [timingCond_agency, riskIntentCond_agency, consCond_agency, aggrCond_agency,
    agencyHighCond_high q a h]
  simp only [if_true]
  ring

lemma fR_agency_high (q : StructuredQuestion) (a : ℚ) (h : 0.7 < a) :
    fR { q with agency := some a } = 1.05 * gR q := by
  unfold fR gR
  rw [timingCond_agency, riskIntentCond_agency, consCond_agency, aggrCond_agency,
    urgencyHighCond_agency, agencyHighCond_high q a h]
  simp only [if_true]
  ring

lemma fM_agency_high (q : StructuredQuestion) (a : ℚ) (h : 0.7 < a) :
    fM { q with agency := some a } = 0.9 * gM q := by
  unfold fM gM
  rw [timingCond_agency, agencyHighCond_high q a h]
  simp only [if_true]
  ring

end RuleEngineLayer

end Yi

namespace Yi

namespace RuleEngineLayer

/-- A feature bundle with every optional field absent, empty strings, and the
default "balanced" risk preference. -/
def qDefault : StructuredQuestion :=
  ⟨"", "", "balanced", none, none, none, none, none, none, none, none⟩

/-- Claim C2, counterexample: for profile zhuxi with zero active slots the
base weight vector is (1, 0, 0), so the renormalized primary weight is 1
both when agency is 0.2 and when agency is 0.8 - raising agency from below
0.3 to above 0.7 does not strictly increase the primary weight there. -/
theorem c2_counterexample :
    ¬ ((featureFusion (loadStrategies .zhuxi 0).weights
          { qDefault with agency := some (1/5) }).primary <
       (featureFusion (loadStrategies .zhuxi 0).weights
          { qDefault with agency := some (4/5) }).primary) := by
  have e : ∀ a : ℚ,
      (featureFusion (loadStrategies .zhuxi 0).weights
        { qDefault with agency := some a }).primary = 1 := by
    intro a
    rw [featureFusion_primary]
    have hfp := fP_pos { qDefault with agency := some a }
    norm_num [loadStrategies]
    exact div_self hfp.ne'
  rw [e, e]
  exact lt_irrefl 1

/-- Claim C2 (amended): increasing agency from a strictly positive value
below 0.3 to a value above 0.7 on an otherwise-identical feature bundle
strictly increases the renormalized primary weight, provided the base
weight vector of the (profile, count) entry has a positive relating or
mutual component.  (When the base vector is (1, 0, 0) - zhuxi or
engineering with zero active slots - the primary share is 1 on both sides,
and a zero low-agency value is treated as absent by JavaScript truthiness,
so the claim as stated fails; see the counterexample.) -/
theorem c2_amended_agency_monotonic
    (p : StrategyProfile) (c : Fin 7) (q : StructuredQuestion) (a1 a2 : ℚ)
    (h1 : 0 < a1) (h2 : a1 < 0.3) (h3 : 0.7 < a2)
    (hbase : 0 < (loadStrategies p c).weights.relating ∨
             0 < (loadStrategies p c).weights.«mutual») :
    (featureFusion (loadStrategies p c).weights { q with agency := some a1 }).primary <
    (featureFusion (loadStrategies p c).weights { q with agency := some a2 }).primary := by
  set w := (loadStrategies p c).weights with hw
  have hx : 0 < w.primary * gP q := mul_pos (basePrimary_pos p c) (gP_pos q)
  have hy : 0 ≤ w.relating * gR q := mul_nonneg (baseRelating_nonneg p c) (gR_pos q).le
  have hz : 0 ≤ w.«mutual» * gM q := mul_nonneg (baseMutual_nonneg p c) (gM_pos q).le
  have hyz : 0 < w.relating * gR q ∨ 0 < w.«mutual» * gM q :=
    hbase.imp (fun h => mul_pos h (gR_pos q)) (fun h => mul_pos h (gM_pos q))
  rw [featureFusion_primary, featureFusion_primary,
    fP_agency_low q a1 h1 h2, fR_agency_low q a1 (by linarith), fM_agency_low q a1 h1 h2,
    fP_agency_high q a2 h3, fR_agency_high q a2 h3, fM_agency_high q a2 h3]
  have hd1 : 0 < w.primary * (0.95 * gP q) + w.relating * gR q +
      w.«mutual» * (1.15 * gM q) := by nlinarith
  have hd2 : 0 < w.primary * (1.05 * gP q) + w.relating * (1.05 * gR q) +
      w.«mutual» * (0.9 * gM q) := by nlinarith
  rw [div_lt_div_iff₀ hd1 hd2]
  rcases hyz with h | h
  · nlinarith [mul_pos hx h, mul_nonneg hx.le hz, mul_nonneg hx.le hy]
  · nlinarith [mul_pos hx h, mul_nonneg hx.le hy, mul_nonneg hx.le hz]

/-- Witness for the amended claim C2 at a concrete instance: profile
engineering, one active slot, agency raised from 0.2 to 0.8. -/
theorem c2_amended_agency_monotonic_witness :
    (featureFusion (loadStrategies .engineering 1).weights
      { qDefault with agency := some (1/5) }).primary <
    (featureFusion (loadStrategies .engineering 1).weights
      { qDefault with agency := some (4/5) }).primary :=
  c2_amended_agency_monotonic .engineering 1 qDefault (1/5) (4/5)
    (by norm_num) (by norm_num) (by norm_num)
    (Or.inl (by norm_num [loadStrategies]))

end RuleEngineLayer

end Yi

namespace Yi

namespace RuleEngineLayer

/-- Claim C6, counterexample: with riskScore present and equal to 0 (which is
inside the claimed interval [0, 0.3)) and a balanced risk preference, the
source computes "riskScore || 0.5" = 0.5, so the conservative rule does NOT
fire and the weights pass through unchanged instead of being multiplied by
1.1 / 0.9. -/
theorem c6_counterexample :
    ({ qDefault with riskScore := some 0 } : StructuredQuestion).riskScore = some 0 ∧
    ((0:ℚ) ≤ 0 ∧ (0:ℚ) < 0.3) ∧
    riskAdjust { qDefault with riskScore := some 0 } ⟨0.7, 0.2, 0.1⟩ = ⟨0.7, 0.2, 0.1⟩ ∧
    ¬ (riskAdjust { qDefault with riskScore := some 0 } ⟨0.7, 0.2, 0.1⟩ =
         ⟨(0.7:ℚ) * 1.1, 0.2 * 0.9, 0.1⟩) := by
  have hcons : consCond { qDefault with riskScore := some 0 } = false := by
    norm_num [consCond, effRiskScore, qDefault]
    decide
  have haggr : aggrCond { qDefault with riskScore := some 0 } = false := by
    norm_num [aggrCond, effRiskScore, qDefault]
    decide
  refine ⟨rfl, by norm_num, ?_, ?_⟩
  · unfold riskAdjust
    rw [hcons, haggr]
    simp
  · unfold riskAdjust
    rw [hcons, haggr]
    simp only [Bool.false_eq_true, if_false]
    intro h
    have := congrArg FusionWeights.primary h
    norm_num at this

/-- Claim C6 (amended): the conservative rule of featureFusion multiplies the
primary weight by 1.1 and the relating weight by 0.9 (before the final
renormalization) whenever the risk score is present and in the open
interval (0, 0.3), or the risk preference is "conservative".  A risk score
of exactly 0 is falsy in JavaScript and is replaced by the default 0.5, so
the rule does not apply at 0 (see the counterexample). -/
theorem c6_amended_conservative_rule (q : StructuredQuestion) (w : FusionWeights)
    (h : (∃ r : ℚ, q.riskScore = some r ∧ 0 < r ∧ r < 0.3) ∨
         q.riskPreference = "conservative") :
    riskAdjust q w = ⟨w.primary * 1.1, w.relating * 0.9, w.«mutual»⟩ := by
  have hcons : consCond q = true := by
    unfold consCond
    rcases h with ⟨r, hr, h0, h3⟩ | h
    · have he : effRiskScore q = r := by
        unfold effRiskScore
        rw [hr]
        simp [h0.ne']
      rw [he, decide_eq_true h3, Bool.true_or]
    · rw [h, decide_eq_true rfl, Bool.or_true]
  unfold riskAdjust
  rw [hcons]
  simp

/-- Witness for the amended claim C6: risk score 0.1 on otherwise default
features multiplies primary by 1.1 and relating by 0.9. -/
theorem c6_amended_conservative_rule_witness :
    riskAdjust { qDefault with riskScore := some (1/10) } ⟨0.6, 0.3, 0.1⟩ =
      ⟨(0.6:ℚ) * 1.1, (0.3:ℚ) * 0.9, (0.1:ℚ)⟩ :=
  c6_amended_conservative_rule _ _ (Or.inl ⟨1/10, rfl, by norm_num, by norm_num⟩)

/-- The base confidence table of RuleEngineLayer.calculateConfidence, with
the source fallback "?? 0.7" for a count outside 0..6. -/
def baseByCount (count : Nat) : ℚ :=
  match count with
  | 0 => 0.7
  | 1 => 0.9
  | 2 => 0.8
  | 3 => 0.6
  | 4 => 0.5
  | 5 => 0.55
  | 6 => 0.55
  | _ => 0.7

/-- JavaScript test "options && options.length > 0". -/
def optionsNonempty (q : StructuredQuestion) : Bool :=
  match q.options with
  | none => false
  | some l => decide (0 < l.length)

/-- RuleEngineLayer.calculateConfidence: base keyed by moving-line count,
six independent additive adjustments, then a cap at 1. -/
def calculateConfidence (count : Nat) (q : StructuredQuestion) : ℚ :=
  min (baseByCount count +
    ((if strTruthy q.goal && strTruthy q.context then 0.05 else 0) +
     (if optionsNonempty q then 0.05 else 0) +
     (if numHigh q.intentConfidence 0.7 then 0.03 else 0) +
     (if numHigh q.confidence 0.7 then 0.02 else 0) -
     (if numHigh q.urgency 0.7 then 0.02 else 0) +
     (if numHigh q.agency 0.7 then 0.02 else 0))) 1

/-- Claim C10: for every active-slot count 0..6 and every feature bundle,
the base confidence is at least 0.5 and the final fusion confidence lies in
[0.48, 1]: the only penalty is -0.02 for high urgency, all other
adjustments are non-negative, and the value is capped above at 1. -/
theorem c10_confidence_bounds (count : Nat) (hc : count ≤ 6) (q : StructuredQuestion) :
    0.5 ≤ baseByCount count ∧
    0.48 ≤ calculateConfidence count q ∧ calculateConfidence count q ≤ 1 := by
  have hbase : 0.5 ≤ baseByCount count := by
    interval_cases count <;> norm_num [baseByCount]
  refine ⟨hbase, ?_, min_le_right _ _⟩
  refine le_min ?_ (by norm_num)
  have b1 : (0:ℚ) ≤ (if strTruthy q.goal && strTruthy q.context then (0.05:ℚ) else 0) := by
    split_ifs <;> norm_num
  have b2 : (0:ℚ) ≤ (if optionsNonempty q then (0.05:ℚ) else 0) := by
    split_ifs <;> norm_num
  have b3 : (0:ℚ) ≤ (if numHigh q.intentConfidence 0.7 then (0.03:ℚ) else 0) := by
    split_ifs <;> norm_num
  have b4 : (0:ℚ) ≤ (if numHigh q.confidence 0.7 then (0.02:ℚ) else 0) := by
    split_ifs <;> norm_num
  have b5 : (if numHigh q.urgency 0.7 then (0.02:ℚ) else 0) ≤ 0.02 := by
    split_ifs <;> norm_num
  have b6 : (0:ℚ) ≤ (if numHigh q.agency 0.7 then (0.02:ℚ) else 0) := by
    split_ifs <;> norm_num
  linarith

/-- Witness for claim C10 at count 4 (the lowest base) and the default
bundle. -/
theorem c10_confidence_bounds_witness :
    (0.5 : ℚ) ≤ baseByCount 4 ∧
    0.48 ≤ calculateConfidence 4 qDefault ∧ calculateConfidence 4 qDefault ≤ 1 :=
  c10_confidence_bounds 4 (by norm_num) qDefault

end RuleEngineLayer

end Yi

namespace Yi

/-! ## Casting and hexagram layers (src/layers/CastingLayer.ts, HexagramLayer) -/

/-- A cast line (interface Line of the casting layer): outcome value 6..9,
polarity (true = yang, as in "yin or yang"), moving flag, and 1-based
position. -/
structure Line where
  value : Nat
  polarity : Bool
  isMoving : Bool
  position : Nat
deriving DecidableEq

namespace HexagramLayer

/-- HexagramLayer.linesToBits: bit i is set when the polarity at index i is
yang (position 1 is bit 0).  Indexing past the end of the list is JavaScript
undefined, which compares unequal to the yang polarity, modelled by the
default false. -/
def linesToBits (polarities : List Bool) : Nat :=
  (List.range 6).foldl
    (fun bits i => if polarities.getD i false then bits ||| (1 <<< i) else bits) 0

/-- HexagramLayer.bitsToKey: the 6-character binary key, bit 0 first. -/
def bitsToKey (bits : Nat) : String :=
  String.mk ((List.range 6).map (fun i => if bits &&& (1 <<< i) ≠ 0 then '1' else '0'))

/-- HexagramLayer.keyToBits: bit i is set when character i of the key is
the character 1.  Indexing past the end of the string is JavaScript
undefined, which is not that character, modelled by a blank default. -/
def keyToBits (key : String) : Nat :=
  (List.range 6).foldl
    (fun bits i => if key.data.getD i ' ' = '1' then bits ||| (1 <<< i) else bits) 0

/-- The 1-based hexagram number exposed by compute: number = bits + 1.
This is the keyToNumber direction of the key/number mapping named in the
specification. -/
def keyToNumber (key : String) : Nat :=
  keyToBits key + 1

/-- The inverse direction of the key/number mapping named in the
specification: the key of hexagram number n (1..64) is the key of bits
n - 1. -/
def numberToKey (n : Nat) : String :=
  bitsToKey (n - 1)

/-- The three derived 6-bit structures. -/
structure HexagramBits where
  primary : Nat
  relating : Nat
  «mutual» : Nat
deriving DecidableEq

/-- The output of HexagramLayer.compute. -/
structure HexagramStructure where
  bits : HexagramBits
  movingLines : List Nat
  primaryKey : String
  relatingKey : String
  mutualKey : String
  primaryNumber : Nat
  relatingNumber : Nat
  mutualNumber : Nat
deriving DecidableEq

/-- HexagramLayer.compute: primary bits from raw polarities, moving-line
positions, relating bits with every moving polarity flipped, and mutual
bits from the interior reindexing [2,3,4,3,4,5] (1-based source positions,
i.e. 0-based indices [1,2,3,2,3,4]).  The source indexes lines directly
(a sequence shorter than 6 would be a caller contract violation); the
defaulted lookup is only ever used with 6 lines in every claim. -/
def compute (lines : List Line) : HexagramStructure :=
  let pol := lines.map (fun l => l.polarity)
  let primaryBits := linesToBits pol
  let primaryKey := bitsToKey primaryBits
  let movingLines := (lines.filter (fun l => l.isMoving)).map (fun l => l.position)
  let relatingPolarities := lines.map (fun l => if l.isMoving then !l.polarity else l.polarity)
  let relatingBits := linesToBits relatingPolarities
  let relatingKey := bitsToKey relatingBits
  let mutualPolarities := [pol.getD 1 false, pol.getD 2 false, pol.getD 3 false,
    pol.getD 2 false, pol.getD 3 false, pol.getD 4 false]
  let mutualBits := linesToBits mutualPolarities
  let mutualKey := bitsToKey mutualBits
  { bits := ⟨primaryBits, relatingBits, mutualBits⟩
    movingLines := movingLines
    primaryKey := primaryKey
    relatingKey := relatingKey
    mutualKey := mutualKey
    primaryNumber := primaryBits + 1
    relatingNumber := relatingBits + 1
    mutualNumber := mutualBits + 1 }

lemma length_eq_six {α : Type} (l : List α) (h : l.length = 6) :
    ∃ a b c d e f, l = [a, b, c, d, e, f] := by
  rcases l with _ | ⟨a, l⟩
  · simp at h
  rcases l with _ | ⟨b, l⟩
  · simp at h
  rcases l with _ | ⟨c, l⟩
  · simp at h
  rcases l with _ | ⟨d, l⟩
  · simp at h
  rcases l with _ | ⟨e, l⟩
  · simp at h
  rcases l with _ | ⟨f, l⟩
  · simp at h
  rcases l with _ | ⟨g, l⟩
  · exact ⟨a, b, c, d, e, f, rfl⟩
  · simp at h

/-- Claim C7: the key/number mapping is a bijection over the 64 six-bit
structures: every 6-character binary key round-trips through its structure
integer, equivalently through its 1-based number, and every number 1..64
round-trips through its key. -/
theorem c7_key_number_bijection :
    (∀ key : String, key.length = 6 → (∀ ch ∈ key.data, ch = '0' ∨ ch = '1') →
       bitsToKey (keyToBits key) = key ∧ numberToKey (keyToNumber key) = key) ∧
    (∀ n : Nat, 1 ≤ n → n ≤ 64 → keyToNumber (numberToKey n) = n) := by
  constructor
  · intro key hlen hbin
    rcases key with ⟨l⟩
    obtain ⟨a, b, c, d, e, f, rfl⟩ := length_eq_six l hlen
    have ha := hbin a (by simp)
    have hb := hbin b (by simp)
    have hc := hbin c (by simp)
    have hd := hbin d (by simp)
    have he := hbin e (by simp)
    have hf := hbin f (by simp)
    rcases ha with rfl | rfl <;> rcases hb with rfl | rfl <;> rcases hc with rfl | rfl <;>
      rcases hd with rfl | rfl <;> rcases he with rfl | rfl <;> rcases hf with rfl | rfl <;>
      exact ⟨by decide, by decide⟩
  · have hb : ∀ m : Nat, m < 64 → keyToBits (bitsToKey m) = m := by decide
    intro n h1 h64
    have : n - 1 < 64 := by omega
    unfold keyToNumber numberToKey
    rw [hb (n - 1) this]
    omega

/-- Witness for claim C7 at a concrete key and a concrete number. -/
theorem c7_key_number_bijection_witness :
    (bitsToKey (keyToBits "101010") = "101010" ∧
     numberToKey (keyToNumber "101010") = "101010") ∧
    keyToNumber (numberToKey 37) = 37 :=
  ⟨c7_key_number_bijection.1 "101010" (by decide) (by decide),
   c7_key_number_bijection.2 37 (by decide) (by decide)⟩

/-- Claim C8: with zero moving lines the relating structure equals the
primary structure, and with six moving lines the relating structure is the
full 6-bit complement (primary XOR 63) of the primary structure. -/
theorem c8_relating_zero_and_six_moving (lines : List Line) (h6 : lines.length = 6) :
    ((∀ l ∈ lines, l.isMoving = false) →
       (compute lines).bits.relating = (compute lines).bits.primary) ∧
    ((∀ l ∈ lines, l.isMoving = true) →
       (compute lines).bits.relating = (compute lines).bits.primary ^^^ 63) := by
  obtain ⟨l1, l2, l3, l4, l5, l6, rfl⟩ := length_eq_six lines h6
  obtain ⟨v1, p1, m1, s1⟩ := l1
  obtain ⟨v2, p2, m2, s2⟩ := l2
  obtain ⟨v3, p3, m3, s3⟩ := l3
  obtain ⟨v4, p4, m4, s4⟩ := l4
  obtain ⟨v5, p5, m5, s5⟩ := l5
  obtain ⟨v6, p6, m6, s6⟩ := l6
  constructor
  · intro hm
    have h1 := hm ⟨v1, p1, m1, s1⟩ (by simp)
    have h2 := hm ⟨v2, p2, m2, s2⟩ (by simp)
    have h3 := hm ⟨v3, p3, m3, s3⟩ (by simp)
    have h4 := hm ⟨v4, p4, m4, s4⟩ (by simp)
    have h5 := hm ⟨v5, p5, m5, s5⟩ (by simp)
    have h6m := hm ⟨v6, p6, m6, s6⟩ (by simp)
    simp only at h1 h2 h3 h4 h5 h6m
    subst h1 h2 h3 h4 h5 h6m
    simp [compute]
  · intro hm
    have h1 := hm ⟨v1, p1, m1, s1⟩ (by simp)
    have h2 := hm ⟨v2, p2, m2, s2⟩ (by simp)
    have h3 := hm ⟨v3, p3, m3, s3⟩ (by simp)
    have h4 := hm ⟨v4, p4, m4, s4⟩ (by simp)
    have h5 := hm ⟨v5, p5, m5, s5⟩ (by simp)
    have h6m := hm ⟨v6, p6, m6, s6⟩ (by simp)
    simp only at h1 h2 h3 h4 h5 h6m
    subst h1 h2 h3 h4 h5 h6m
    simp only [compute, List.map_cons, List.map_nil]
    cases p1 <;> cases p2 <;> cases p3 <;> cases p4 <;> cases p5 <;> cases p6 <;> decide

/-- A fully static cast (no moving line) used by the claim C8 witness. -/
def linesStill : List Line :=
  [⟨7, true, false, 1⟩, ⟨8, false, false, 2⟩, ⟨7, true, false, 3⟩,
   ⟨8, false, false, 4⟩, ⟨7, true, false, 5⟩, ⟨8, false, false, 6⟩]

/-- A fully moving cast (six moving lines) used by the claim C8 witness. -/
def linesMoving : List Line :=
  [⟨9, true, true, 1⟩, ⟨6, false, true, 2⟩, ⟨9, true, true, 3⟩,
   ⟨6, false, true, 4⟩, ⟨9, true, true, 5⟩, ⟨6, false, true, 6⟩]

/-- Witness for claim C8 on two concrete casts. -/
theorem c8_relating_zero_and_six_moving_witness :
    (compute linesStill).bits.relating = (compute linesStill).bits.primary ∧
    (compute linesMoving).bits.relating = (compute linesMoving).bits.primary ^^^ 63 :=
  ⟨(c8_relating_zero_and_six_moving linesStill rfl).1 (by decide),
   (c8_relating_zero_and_six_moving linesMoving rfl).2 (by decide)⟩

end HexagramLayer

end Yi

namespace Yi

/-! ## Seeded sampler (src/utils/prng.ts, src/cast.ts, CastingLayer) -/

/-- 2 to the 32nd: the modulus of JavaScript 32-bit integer coercions. -/
def U32 : Nat := 4294967296

/-- JavaScript "i >>> 0" (ToUint32) on an integer. -/
def toUint32 (i : Int) : Nat :=
  (i % (U32 : Int)).toNat

/-- One step of hashStringToNumber: h is xor-ed with the code unit, then
summed with its shifts by 1, 4, 7, 8 and 24 bits (the FNV-1a multiply),
every 32-bit coercion made explicit with a modulus. -/
def hashStep (h : Nat) (c : Nat) : Nat :=
  let g := (h % U32) ^^^ (c % 65536)
  (g + ((g <<< 1) % U32 + (g <<< 4) % U32 + (g <<< 7) % U32 +
        (g <<< 8) % U32 + (g <<< 24) % U32)) % U32

/-- prng.hashStringToNumber: FNV-1a over the code units of the string,
offset basis 2166136261. -/
def hashStringToNumber (s : String) : Nat :=
  (s.data.map Char.toNat).foldl hashStep 2166136261

lemma hashStep_lt (h c : Nat) : hashStep h c < U32 := by
  unfold hashStep
  exact Nat.mod_lt _ (by norm_num [U32])

lemma foldl_hashStep_lt (l : List Nat) (h : Nat) (hh : h < U32) :
    l.foldl hashStep h < U32 := by
  induction l generalizing h with
  | nil => exact hh
  | cons c l ih =>
      rw [List.foldl_cons]
      exact ih (hashStep h c) (hashStep_lt h c)

lemma hashStringToNumber_lt (s : String) : hashStringToNumber s < U32 :=
  foldl_hashStep_lt _ _ (by norm_num [U32])

/-- One step of the xorshift32 generator (prng.createPRNG.next and
CastingLayer.makePRNG.nextInt): left shifts take the low 32 bits, the right
shift is the unsigned shift. -/
def xorshift32 (state : Nat) : Nat :=
  let x1 := state ^^^ ((state <<< 13) % U32)
  let x2 := x1 ^^^ (x1 >>> 17)
  x2 ^^^ ((x2 <<< 5) % U32)

/-- Seed resolution of prng.createPRNG: an integer seed is coerced with
">>> 0", a string seed is hashed, an absent seed draws a fresh 32-bit value
from a non-deterministic source (passed here explicitly as entropy), and a
resolved value of 0 is remapped to the sentinel 0xdeadbeef. -/
def resolveSeedRaw (seed : Option (Int ⊕ String)) (entropy : Nat) : Nat :=
  match seed with
  | none => entropy % U32
  | some (Sum.inl n) => toUint32 n
  | some (Sum.inr str) => hashStringToNumber str

/-- Seed resolution of prng.createPRNG, continued: a resolved value of 0 is
remapped to the sentinel 0xdeadbeef. -/
def resolveSeed (seed : Option (Int ⊕ String)) (entropy : Nat) : Nat :=
  if resolveSeedRaw seed entropy = 0 then 0xdeadbeef else resolveSeedRaw seed entropy

/-- The generator object returned by prng.createPRNG: the resolved seed it
exposes and its internal state (both start at the resolved seed). -/
structure PRNG where
  seed : Nat
  state : Nat
deriving DecidableEq

/-- prng.createPRNG. -/
def createPRNG (seed : Option (Int ⊕ String)) (entropy : Nat) : PRNG :=
  let s := resolveSeed seed entropy
  ⟨s, s⟩

/-- prng nextInt: advance the state, reduce modulo max(1, max). -/
def nextInt (st : Nat) (max : Nat) : Nat × Nat :=
  let v := xorshift32 st
  (v % Nat.max 1 max, v)

/-- prng nextFloat: advance the state, divide by 0xFFFFFFFF. -/
def nextFloat (st : Nat) : ℚ × Nat :=
  let v := xorshift32 st
  ((v : ℚ) / 4294967295, v)

/-- The object returned by makeSeededCastingMethod in cast.ts: it exposes
the seed of the underlying generator. -/
structure SeededCastingMethod where
  seed : Nat
  state : Nat
deriving DecidableEq

/-- cast.ts makeSeededCastingMethod: builds a createPRNG generator and
returns an object exposing roll and the resolved seed. -/
def makeSeededCastingMethod (seed : Option (Int ⊕ String)) (entropy : Nat) :
    SeededCastingMethod :=
  let prng := createPRNG seed entropy
  ⟨prng.seed, prng.state⟩

/-- The roll of makeSeededCastingMethod: one nextFloat draw mapped through
the quartile thresholds 0.25 / 0.5 / 0.75 to the outcome 6, 7, 8 or 9. -/
def rollSeeded (st : Nat) : Nat × Nat :=
  let r := nextFloat st
  (if r.1 < 0.25 then 6 else if r.1 < 0.5 then 7 else if r.1 < 0.75 then 8 else 9, r.2)

namespace CastingLayer

/-- Seed resolution of CastingLayer.makePRNG: number seeds only (no string
hashing), same ">>> 0" coercion, entropy fallback and zero sentinel. -/
def makePRNGStateRaw (seed : Option Int) (entropy : Nat) : Nat :=
  match seed with
  | some n => toUint32 n
  | none => entropy % U32

/-- Seed resolution of CastingLayer.makePRNG, continued: zero remaps to the
sentinel 0xdeadbeef. -/
def makePRNGState (seed : Option Int) (entropy : Nat) : Nat :=
  if makePRNGStateRaw seed entropy = 0 then 0xdeadbeef else makePRNGStateRaw seed entropy

/-- The object literal returned by CastingLayer.threeCoins: a name, a roll
closure over the generator state, and NO seed property - reading .seed on
it yields JavaScript undefined, modelled as none. -/
structure CastingMethodObj where
  name : String
  seed : Option Nat
  state : Nat
deriving DecidableEq

/-- CastingLayer.threeCoins: builds the internal generator and returns
only the name and the roll closure. -/
def threeCoins (seed : Option Int) (entropy : Nat) : CastingMethodObj :=
  ⟨"three-coins", none, makePRNGState seed entropy⟩

/-- The roll of threeCoins: three nextInt(2) coin draws; the heads count
3, 2, 1, 0 maps to the outcome 9, 7, 8, 6. -/
def coinRoll (st : Nat) : Nat × Nat :=
  let d1 := nextInt st 2
  let d2 := nextInt d1.2 2
  let d3 := nextInt d2.2 2
  let heads := d1.1 + d2.1 + d3.1
  (if heads = 3 then 9 else if heads = 2 then 7 else if heads = 1 then 8 else 6, d3.2)

end CastingLayer

/-- Claim C5, counterexample: the object returned by the three-coins sampler
constructor for seed 42 has no seed field at all (undefined), instead of the
resolved seed 42; the decision engine then surfaces undefined for the run. -/
theorem c5_counterexample :
    (CastingLayer.threeCoins (some 42) 0).seed = none ∧
    (CastingLayer.threeCoins (some 42) 0).seed ≠ some (toUint32 42) :=
  ⟨rfl, by decide⟩

/-- Claim C5 (amended): the seeded casting constructor of cast.ts
(makeSeededCastingMethod) does expose, for every integer, string or absent
seed argument, a seed field equal to the resolved non-zero 32-bit seed that
also initializes the generator state; the CastingLayer constructors return
objects with no seed field (see the counterexample). -/
theorem c5_amended_seed_round_trip (seed : Option (Int ⊕ String)) (entropy : Nat) :
    (makeSeededCastingMethod seed entropy).seed = resolveSeed seed entropy ∧
    (makeSeededCastingMethod seed entropy).state = resolveSeed seed entropy ∧
    resolveSeed seed entropy ≠ 0 ∧ resolveSeed seed entropy < U32 := by
  have hraw : resolveSeedRaw seed entropy < U32 := by
    rcases seed with _ | n_or_s
    · exact Nat.mod_lt _ (by norm_num [U32])
    rcases n_or_s with n | str
    · have h1 : 0 ≤ n % (U32 : Int) := Int.emod_nonneg n (by norm_num [U32])
      have h2 : n % (U32 : Int) < (U32 : Int) := Int.emod_lt_of_pos n (by norm_num [U32])
      simp only [resolveSeedRaw, toUint32]
      omega
    · exact hashStringToNumber_lt str
  refine ⟨rfl, rfl, ?_, ?_⟩
  · unfold resolveSeed
    split_ifs with h
    · norm_num
    · exact h
  · unfold resolveSeed
    split_ifs with h
    · norm_num [U32]
    · exact hraw

end Yi

namespace Yi

/-! ## Signal model (src/signals/SignalModel.ts, src/types.ts) -/

namespace SignalModel

/-- KPI direction: higher-is-better or lower-is-better. -/
inductive Direction where
  | higher
  | lower
deriving DecidableEq

/-- The three threshold scalars of a KPI definition. -/
structure Thresholds where
  good : ℚ
  warning : ℚ
  bad : ℚ
deriving DecidableEq

/-- types.ts KPIDefinition. -/
structure KPIDefinition where
  kpiId : String
  description : String
  direction : Direction
  thresholds : Thresholds
  window : Option Nat
deriving DecidableEq

/-- SignalModel.ts KPITimeSeries. -/
structure KPITimeSeries where
  kpiId : String
  values : List ℚ
  timestamps : Option (List ℚ)
deriving DecidableEq

/-- The threshold zone crossed by a value. -/
inductive Zone where
  | good
  | warning
  | bad
deriving DecidableEq

/-- The categorical signal. -/
inductive SignalKind where
  | positive
  | negative
  | neutral
deriving DecidableEq

/-- types.ts SignalResult; the optional fields absent in the
unknown-definition branch are Option. -/
structure SignalResult where
  kpiId : String
  signal : SignalKind
  slope : Option ℚ
  lastValue : Option ℚ
  thresholdCrossed : Option Zone
  trigger : Option String
  confidence : ℚ
deriving DecidableEq

/-- The kpiDefinitions map of SignalModel, as a lookup by identifier. -/
def findDef (defs : List KPIDefinition) (id : String) : Option KPIDefinition :=
  defs.find? (fun d => decide (d.kpiId = id))

/-- SignalModel.computeSlope: ordinary least squares of value against index
over the trailing window (JavaScript "window ? values.slice(-window) :
values"; a window of 0 is falsy and keeps the whole series), with slope 0
for fewer than 2 points or a zero denominator. -/
def computeSlope (values : List ℚ) (window : Option Nat) : ℚ :=
  let data :=
    match window with
    | some w => if w = 0 then values else values.drop (values.length - w)
    | none => values
  if data.length < 2 then 0
  else
    let n : ℚ := data.length
    let xMean : ℚ := ((data.length : ℚ) - 1) / 2
    let yMean : ℚ := data.sum / n
    let numer : ℚ :=
      ((List.range data.length).map
        (fun (i : ℕ) => ((i : ℚ) - xMean) * (data.getD i 0 - yMean))).sum
    let denom : ℚ :=
      ((List.range data.length).map
        (fun (i : ℕ) => ((i : ℚ) - xMean) * ((i : ℚ) - xMean))).sum
    if denom = 0 then 0 else numer / denom

/-- SignalModel.checkThreshold (defined on an actual number). -/
def checkThreshold (value : ℚ) (d : KPIDefinition) : Option Zone :=
  match d.direction with
  | .higher =>
      if d.thresholds.good ≤ value then some .good
      else if d.thresholds.warning ≤ value then some .warning
      else if value < d.thresholds.bad then some .bad
      else none
  | .lower =>
      if value ≤ d.thresholds.good then some .good
      else if value ≤ d.thresholds.warning then some .warning
      else if d.thresholds.bad < value then some .bad
      else none

/-- checkThreshold as called on a possibly-undefined last value: every
comparison against JavaScript undefined is false, so the result is
undefined. -/
def checkThresholdJS (value : Option ℚ) (d : KPIDefinition) : Option Zone :=
  match value with
  | none => none
  | some v => checkThreshold v d

/-- SignalModel.determineSignal.  With an undefined value the relative
slope threshold |value| * 0.05 is NaN and both NaN comparisons are false,
so the result is neutral. -/
def determineSignal (value : Option ℚ) (slope : ℚ) (d : KPIDefinition) : SignalKind :=
  match checkThresholdJS value d with
  | some .good => if 0 ≤ slope then .positive else .neutral
  | some .bad => if slope ≤ 0 then .negative else .neutral
  | _ =>
      match value with
      | none => .neutral
      | some v =>
          let slopeThreshold := |v| * 0.05
          match d.direction with
          | .higher =>
              if slopeThreshold < slope then .positive
              else if slope < -slopeThreshold then .negative
              else .neutral
          | .lower =>
              if slope < -slopeThreshold then .positive
              else if slopeThreshold < slope then .negative
              else .neutral

/-- SignalModel.computeConfidence.  The source compares the coefficient of
variation cv = sqrt(variance) / |mean| against 0.1 and 0.5, with a zero
mean treated as cv = 1; since both sides of each comparison are
non-negative, the comparisons are expressed here equivalently on squares
to stay inside the rationals. -/
def computeConfidence (values : List ℚ) : ℚ :=
  if values.length = 0 then 0
  else
    let base : ℚ := 0.5 + (if 10 ≤ values.length then 0.2 else 0) +
      (if 30 ≤ values.length then 0.1 else 0)
    let mean : ℚ := values.sum / values.length
    let variance : ℚ := ((values.map (fun v => (v - mean) * (v - mean))).sum) / values.length
    let stable : Bool := if mean = 0 then false else decide (variance < 0.1 ^ 2 * mean ^ 2)
    let volatile : Bool := if mean = 0 then true else decide (0.5 ^ 2 * mean ^ 2 < variance)
    max 0.1 (min 1 (base + (if stable then 0.1 else 0) - (if volatile then 0.2 else 0)))

/-- JavaScript Number.prototype.toFixed(2) on a non-negative number:
round to the nearest hundredth, ties toward the larger value. -/
def toFixed2Abs (x : ℚ) : String :=
  let n : Nat := (Int.floor (x * 100 + 1/2)).toNat
  toString (n / 100) ++ "." ++ (if n % 100 < 10 then "0" else "") ++ toString (n % 100)

/-- JavaScript Number.prototype.toFixed(2): a negative number is rendered
as the sign followed by the rendering of its negation. -/
def toFixed2 (x : ℚ) : String :=
  if x < 0 then "-" ++ toFixed2Abs (-x) else toFixed2Abs x

/-- The exception raised by value.toFixed(2) when value is undefined. -/
def toFixedErr : String := "TypeError: cannot read toFixed of undefined"

/-- "value.toFixed(2)" on a possibly-undefined value: undefined has no
methods, so the call throws. -/
def jsToFixed (v : Option ℚ) : Except String String :=
  match v with
  | none => Except.error toFixedErr
  | some x => Except.ok (toFixed2 x)

/-- SignalModel.generateTrigger.  Every branch interpolates
value.toFixed(2), so the result is an exception whenever the last value is
undefined. -/
def generateTrigger (signal : SignalKind) (threshold : Option Zone) (value : Option ℚ)
    (slope : ℚ) (d : KPIDefinition) : Except String String :=
  match threshold with
  | some .good =>
      match jsToFixed value with
      | Except.error e => Except.error e
      | Except.ok s => Except.ok (d.description ++ " is at a good level (" ++ s ++ ")")
  | some .bad =>
      match jsToFixed value with
      | Except.error e => Except.error e
      | Except.ok s => Except.ok (d.description ++ " crossed bad threshold (" ++ s ++ ")")
  | some .warning =>
      match jsToFixed value with
      | Except.error e => Except.error e
      | Except.ok s => Except.ok (d.description ++ " at warning level (" ++ s ++ ")")
  | none =>
      let trendDirection : String :=
        if 0 < slope then "increasing" else if slope < 0 then "decreasing" else "stable"
      let isGoodTrend : Bool :=
        (decide (d.direction = Direction.higher) && decide (0 < slope)) ||
        (decide (d.direction = Direction.lower) && decide (slope < 0))
      if 0.01 < |slope| then
        match jsToFixed value with
        | Except.error e => Except.error e
        | Except.ok s =>
            Except.ok (d.description ++ " is " ++ trendDirection ++ " (current: " ++ s ++
              ", trend: " ++ (if isGoodTrend then "positive" else "negative") ++ ")")
      else
        match jsToFixed value with
        | Except.error e => Except.error e
        | Except.ok s => Except.ok (d.description ++ " is stable at " ++ s)

/-- SignalModel.evaluateKPI: an unknown identifier short-circuits to the
neutral zero-confidence result; otherwise statistics are computed and a
trigger string is generated (which can throw, propagated here as error). -/
def evaluateKPI (defs : List KPIDefinition) (series : KPITimeSeries) :
    Except String SignalResult :=
  match findDef defs series.kpiId with
  | none =>
      Except.ok
        { kpiId := series.kpiId
          signal := .neutral
          slope := none
          lastValue := none
          thresholdCrossed := none
          trigger := some "KPI definition not found"
          confidence := 0 }
  | some d =>
      let lastValue := series.values.getLast?
      let slope := computeSlope series.values d.window
      let thresholdCrossed := checkThresholdJS lastValue d
      let signal := determineSignal lastValue slope d
      let confidence := computeConfidence series.values
      match generateTrigger signal thresholdCrossed lastValue slope d with
      | Except.error e => Except.error e
      | Except.ok trigger =>
          Except.ok
            { kpiId := series.kpiId
              signal := signal
              slope := some slope
              lastValue := lastValue
              thresholdCrossed := thresholdCrossed
              trigger := some trigger
              confidence := confidence }

end SignalModel

end Yi

namespace Yi

namespace SignalModel

/-- Claim C9: a series whose identifier has no threshold definition
evaluates, for any values whatsoever, to signal neutral with confidence
exactly 0 and no slope, last value or threshold zone - slope, zone and
confidence computation are bypassed entirely. -/
theorem c9_unknown_kpi_short_circuit (defs : List KPIDefinition) (series : KPITimeSeries)
    (h : findDef defs series.kpiId = none) :
    evaluateKPI defs series = Except.ok
      { kpiId := series.kpiId
        signal := .neutral
        slope := none
        lastValue := none
        thresholdCrossed := none
        trigger := some "KPI definition not found"
        confidence := 0 } := by
  unfold evaluateKPI
  rw [h]

/-- Witness for claim C9: an unknown identifier over the values [1, 2, 3]. -/
theorem c9_unknown_kpi_short_circuit_witness :
    evaluateKPI [] ⟨"unknown", [1, 2, 3], none⟩ = Except.ok
      ⟨"unknown", .neutral, none, none, none, some "KPI definition not found", 0⟩ :=
  c9_unknown_kpi_short_circuit [] ⟨"unknown", [1, 2, 3], none⟩ rfl

/-- Modelled from the spec sentence for claim C4 (threshold-zone
classification), to be compared with the source checkThreshold: good if
value is at or beyond the good threshold, else warning likewise, else bad
strictly beyond the bad threshold, else undefined; comparisons per
direction. -/
def checkThresholdSpec (value : ℚ) (d : KPIDefinition) : Option Zone :=
  match d.direction with
  | .higher =>
      if value ≥ d.thresholds.good then some .good
      else if value ≥ d.thresholds.warning then some .warning
      else if value < d.thresholds.bad then some .bad
      else none
  | .lower =>
      if value ≤ d.thresholds.good then some .good
      else if value ≤ d.thresholds.warning then some .warning
      else if value > d.thresholds.bad then some .bad
      else none

/-- Claim C4: the source checkThreshold implements exactly the claimed
classification, and a value in the gap between the warning and bad
thresholds yields the undefined zone (not an error), in both directions. -/
theorem c4_threshold_zone_classification (v : ℚ) (d : KPIDefinition) :
    checkThreshold v d = checkThresholdSpec v d ∧
    (d.direction = .higher → v < d.thresholds.good → v < d.thresholds.warning →
      d.thresholds.bad ≤ v → checkThreshold v d = none) ∧
    (d.direction = .lower → d.thresholds.good < v → d.thresholds.warning < v →
      v ≤ d.thresholds.bad → checkThreshold v d = none) := by
  obtain ⟨id, desc, dir, th, win⟩ := d
  refine ⟨?_, ?_, ?_⟩
  · cases dir <;> rfl
  · intro hdir h1 h2 h3
    simp only at hdir
    subst hdir
    simp only [checkThreshold]
    rw [if_neg (not_le.mpr h1), if_neg (not_le.mpr h2), if_neg (not_lt.mpr h3)]
  · intro hdir h1 h2 h3
    simp only at hdir
    subst hdir
    simp only [checkThreshold]
    rw [if_neg (not_le.mpr h1), if_neg (not_le.mpr h2), if_neg (not_lt.mpr h3)]

/-- A higher-is-better definition with a genuine gap between the warning
threshold (8) and the bad threshold (5), used by the claim C4 witness. -/
def dGap : KPIDefinition := ⟨"gap", "gap kpi", .higher, ⟨10, 8, 5⟩, none⟩

/-- Witness for claim C4: the value 6 lies in the gap of dGap and is
classified as the undefined zone. -/
theorem c4_threshold_zone_classification_witness :
    checkThreshold 6 dGap = checkThresholdSpec 6 dGap ∧ checkThreshold 6 dGap = none :=
  ⟨(c4_threshold_zone_classification 6 dGap).1,
   (c4_threshold_zone_classification 6 dGap).2.1 rfl (by norm_num [dGap])
     (by norm_num [dGap]) (by norm_num [dGap])⟩

/-- The lower-is-better CPU definition from the test suite, used as the
concrete failing input of claim C3. -/
def cpuDef : KPIDefinition := ⟨"cpu", "CPU usage", .lower, ⟨50, 75, 90⟩, some 5⟩

/-- Claim C3 is violated by the code: for a series whose identifier DOES
have a threshold definition but whose values array is empty, the slope and
confidence fallbacks (0) are applied, yet generateTrigger interpolates
value.toFixed(2) with the undefined last value, so evaluateKPI raises a
TypeError instead of returning a defined result. -/
theorem c3_empty_series_known_kpi_throws :
    evaluateKPI [cpuDef] ⟨"cpu", [], none⟩ = Except.error toFixedErr := by
  with_unfolding_all rfl

end SignalModel

end Yi
